import Mathlib

/-!
Shallow embedding of the resilient data-aggregation layer of the
financial-market-analyst repository: the quote provider chain with its
simulated-data fallback and TTL cache (`MarketDataService`), the news
alert aggregator (`NewsService`), and the heuristic report-field
extractor (`AIFinancialService`).

Modelling conventions:
* JS numbers are modelled as `ℚ` (the source only performs exact decimal
  arithmetic in the paths of interest); `Math.round` and `Number.toFixed`
  are half-up rounding, which coincides with Mathlib's `round` on `ℚ`.
* `Math.random()` draws are injected explicitly as rational parameters,
  constrained to `[0, 1)` by hypotheses where bounds matter.
* Timestamps (`Date.now()`, `new Date()`) are an injected `now : ℤ`
  (milliseconds).
* Network and JSON responses are injected values of explicit response
  types; a thrown JS exception is an `Except.error`.
* The mutable per-service cache (`this.cache : Map`) becomes an explicit
  state component threaded through the functions.
-/

namespace FinMarket

/-- Chain JS `Math.round(x * 100) / 100`, i.e. rounding to two decimals
half-up, used throughout `generateRealisticMockData`. -/
def round2 (x : ℚ) : ℚ := ((round (x * 100) : ℤ) : ℚ) / 100

/-- JS truthiness of an API-key field: `undefined` (`none`) and the empty
string are falsy, every other string is truthy.  Mirrors the
`if (this.alphaVantageKey)` checks in the source. -/
def keyPresent : Option String → Bool
  | none => false
  | some s => s != ""

/-! ## MarketDataService: data model -/

/-- A quote record as produced by `parseAlphaVantageData` (live) or
`generateRealisticMockData` (simulated).  The live object lacks the
`isLive` and `source` JS fields, hence these are `Option`s here with
`none` meaning "field absent on the JS object". -/
structure QuoteRecord where
  symbol : String
  price : ℚ
  change : ℚ
  changePercent : ℚ
  volume : ℤ
  high : ℚ
  low : ℚ
  openPrice : ℚ
  previousClose : ℚ
  timestamp : ℤ
  isLive : Option Bool
  source : Option String
  deriving DecidableEq, Repr

/-- A quote record is schema-complete when every field, including the
origin markers, is present on the object. -/
def schemaComplete (q : QuoteRecord) : Prop := q.isLive.isSome ∧ q.source.isSome

/-- The `Global Quote` payload of an Alpha Vantage response, with the
numeric strings (`"05. price"` etc.) already parsed to numbers; the
percent sign of `"10. change percent"` is already stripped. -/
structure AVQuote where
  symbol : String
  price : ℚ
  change : ℚ
  changePercent : ℚ
  volume : ℤ
  high : ℚ
  low : ℚ
  openPrice : ℚ
  previousClose : ℚ
  deriving DecidableEq, Repr

/-- The decoded JSON body of an Alpha Vantage `GLOBAL_QUOTE` response:
the optional `Information`, `Error Message` and `Note` marker fields and
the optional `Global Quote` payload. -/
structure AVResponse where
  information : Option String
  errorMessage : Option String
  note : Option String
  globalQuote : Option AVQuote
  deriving DecidableEq, Repr

/-- Outcome of the HTTP round-trip in `fetchAlphaVantageData`: either a
decoded JSON body or a transport-level exception. -/
inductive Transport where
  | ok (r : AVResponse)
  | netFail (msg : String)
  deriving DecidableEq, Repr

/-- `parseAlphaVantageData` (src/unnamed/part_000, lines 358-376): throws
on a missing `Global Quote`, otherwise builds the quote record.  The
returned JS object carries no `isLive`/`source` fields. -/
def parseAlphaVantageData (r : AVResponse) (now : ℤ) : Except String QuoteRecord :=
  match r.globalQuote with
  | none => .error "Invalid response format"
  | some q => .ok
      { symbol := q.symbol
        price := q.price
        change := q.change
        changePercent := q.changePercent
        volume := q.volume
        high := q.high
        low := q.low
        openPrice := q.openPrice
        previousClose := q.previousClose
        timestamp := now
        isLive := none
        source := none }

/-- `fetchAlphaVantageData` (lines 277-297): a transport failure or any of
the `Information` / `Error Message` / `Note` marker fields throws;
otherwise the body is parsed. -/
def fetchAlphaVantageData (tr : Transport) (now : ℤ) : Except String QuoteRecord :=
  match tr with
  | .netFail msg => .error msg
  | .ok r =>
    match r.information with
    | some _ => .error "Rate limit exceeded - using simulated data"
    | none =>
      match r.errorMessage with
      | some m => .error ("API Error: " ++ m)
      | none =>
        match r.note with
        | some m => .error ("API Note: " ++ m)
        | none => parseAlphaVantageData r now

/-! ## MarketDataService: simulated quote generator -/

/-- The three `Math.random()` draws consumed by
`generateRealisticMockData`, in evaluation order. -/
structure MockDraws where
  u1 : ℚ
  u2 : ℚ
  u3 : ℚ
  deriving DecidableEq, Repr

/-- The static `basePrices` table (lines 380-391), default 100 for
unknown symbols. -/
def basePriceFor (symbol : String) : ℚ :=
  if symbol = "AAPL" then 180
  else if symbol = "MSFT" then 415
  else if symbol = "NVDA" then 450
  else if symbol = "GOOGL" then 140
  else if symbol = "META" then 500
  else if symbol = "AMZN" then 140
  else if symbol = "TSLA" then 240
  else if symbol = "BRK.B" then 430
  else if symbol = "JPM" then 185
  else if symbol = "V" then 245
  else 100

/-- The symbol-specific base volume (lines 405-407). -/
def baseVolumeFor (symbol : String) : ℚ :=
  if symbol = "AAPL" then 50000000
  else if symbol = "NVDA" then 25000000
  else if symbol = "MSFT" then 30000000
  else 20000000

/-- `generateRealisticMockData` (lines 378-424): the simulated-quote
fallback.  Marks the record `isLive = false`,
`source = "Simulated (Rate Limited)"`. -/
def generateRealisticMockData (symbol : String) (d : MockDraws) (now : ℤ) : QuoteRecord :=
  let basePrice := basePriceFor symbol
  let variation := (d.u1 - 0.5) * 0.06
  let currentPrice := basePrice * (1 + variation)
  let dailyChange := (d.u2 - 0.5) * 0.04
  let change := currentPrice * dailyChange
  let changePercent := dailyChange * 100
  let baseVolume := baseVolumeFor symbol
  { symbol := symbol
    price := round2 currentPrice
    change := round2 change
    changePercent := round2 changePercent
    volume := ⌊baseVolume * (0.5 + d.u3)⌋
    high := round2 (currentPrice * 1.02)
    low := round2 (currentPrice * 0.98)
    openPrice := round2 (currentPrice * (1 - dailyChange * 0.5))
    previousClose := round2 (currentPrice - change)
    timestamp := now
    isLive := some false
    source := some "Simulated (Rate Limited)" }

/-! ## MarketDataService: provider chain with cache -/

/-- The state of a `MarketDataService` instance: the three credentials
read in the constructor (lines 242-251) and the `Map`-backed cache.
`cacheTimeout` is the constant 60000 ms. -/
structure MDState where
  alphaVantageKey : Option String
  polygonKey : Option String
  finnhubKey : Option String
  cache : String → Option (QuoteRecord × ℤ)

/-- The cache-miss branch of `getRealTimeStockData` (lines 261-274): only
the Alpha Vantage credential is consulted; on its success the result is
cached under `quote_{symbol}`; on a missing credential or any thrown
error the simulated fallback is returned and the cache is untouched. -/
def quoteFetchBody (st : MDState) (symbol : String) (tr : Transport) (d : MockDraws)
    (now : ℤ) : QuoteRecord × MDState :=
  if keyPresent st.alphaVantageKey then
    match fetchAlphaVantageData tr now with
    | .ok data =>
        (data,
         { st with cache := fun k =>
             if k = "quote_" ++ symbol then some (data, now) else st.cache k })
    | .error _ => (generateRealisticMockData symbol d now, st)
  else
    (generateRealisticMockData symbol d now, st)

/-- `getRealTimeStockData` (lines 253-275): a fresh cache entry under
`quote_{symbol}` is returned as-is; otherwise the fetch body runs. -/
def getRealTimeStockData (st : MDState) (symbol : String) (tr : Transport) (d : MockDraws)
    (now : ℤ) : QuoteRecord × MDState :=
  match st.cache ("quote_" ++ symbol) with
  | some e =>
      if now - e.2 < 60000 then (e.1, st)
      else quoteFetchBody st symbol tr d now
  | none => quoteFetchBody st symbol tr d now

/-- The cache neither holds nor freshly holds an entry for `symbol` at
time `now` (absent or stale entry). -/
def quoteCacheMiss (st : MDState) (symbol : String) (now : ℤ) : Prop :=
  ∀ e, st.cache ("quote_" ++ symbol) = some e → ¬ (now - e.2 < 60000)

/-- The enumerated failure paths of the live quote fetch: missing
credential, transport failure, the provider rate-limit marker
(`Information`), the explicit error-message field, the `Note` marker, or
a malformed response (no `Global Quote`). -/
def liveQuoteUnavailable (st : MDState) (tr : Transport) : Prop :=
  keyPresent st.alphaVantageKey = false
  ∨ (∃ m, tr = .netFail m)
  ∨ (∃ r, tr = .ok r ∧ r.information.isSome)
  ∨ (∃ r, tr = .ok r ∧ r.errorMessage.isSome)
  ∨ (∃ r, tr = .ok r ∧ r.note.isSome)
  ∨ (∃ r, tr = .ok r ∧ r.globalQuote = none)

/-! ## MarketDataService: batch coordinator -/

/-- One element of the `getBatchStockData` output (lines 431-441).
`data` is an `Option` so that "the data field is never null" is a real
statement about the code rather than a typing artifact. -/
structure BatchItem where
  symbol : String
  data : Option QuoteRecord
  error : Option String
  deriving DecidableEq, Repr

/-- Outcome of one settled promise in `Promise.allSettled`. -/
inductive Settled (α : Type) where
  | fulfilled (v : α)
  | rejected (msg : String)
  deriving DecidableEq, Repr

/-- The settled outcome of one `getRealTimeStockData` promise.  The JS
function catches every exception internally, so its promise always
fulfills; the embedding is a total function, making this explicit. -/
def settleQuote (st : MDState) (symbol : String) (tr : Transport) (d : MockDraws)
    (now : ℤ) : Settled QuoteRecord :=
  .fulfilled (getRealTimeStockData st symbol tr d now).1

/-- `getBatchStockData` (lines 427-442): all per-symbol fetches are
launched concurrently from the same initial service state and joined
with `Promise.allSettled`; each settled result is mapped to a
`BatchItem`. -/
def getBatchStockData (st : MDState) (symbols : List String) (tr : String → Transport)
    (d : String → MockDraws) (now : ℤ) : List BatchItem :=
  symbols.map fun s =>
    match settleQuote st s (tr s) (d s) now with
    | .fulfilled v => { symbol := s, data := some v, error := none }
    | .rejected m =>
        { symbol := s, data := some (generateRealisticMockData s (d s) now), error := some m }

/-! ## NewsService: data model -/

/-- Alert classification used across the news pipeline. -/
inductive AlertType where
  | bullish
  | bearish
  | neutral
  deriving DecidableEq, Repr

/-- An alert as produced by the provider mappers or the simulated
generator (`timestamp` in epoch milliseconds).  The simulated alerts
carry an extra `minutesAgo` JS field absent on live ones. -/
structure AlertRecord where
  id : String
  title : String
  type : AlertType
  timestamp : ℤ
  source : String
  isLive : Bool
  minutesAgo : Option ℕ
  deriving DecidableEq, Repr

/-- ASCII lowercasing of a string into its character list; the source's
`headline.toLowerCase()` on the ASCII headlines in scope. -/
def toLowerList (s : String) : List Char := s.data.map Char.toLower

/-- Whether `pat` occurs at the head of `s`. -/
def beginsWith : List Char → List Char → Bool
  | [], _ => true
  | _ :: _, [] => false
  | p :: ps, c :: cs => p = c && beginsWith ps cs

/-- Whether `pat` occurs as a contiguous substring of `s`; the JS
`String.prototype.includes`. -/
def containsSub (pat : List Char) : List Char → Bool
  | [] => beginsWith pat []
  | c :: cs => beginsWith pat (c :: cs) || containsSub pat cs

/-- The ordered bullish keyword list (line 122). -/
def bullishKeywords : List String :=
  ["beat", "surge", "rally", "jump", "gain", "bullish", "up", "rise"]

/-- The ordered bearish keyword list (line 123). -/
def bearishKeywords : List String :=
  ["fall", "drop", "decline", "bear", "down", "plunge", "crash"]

/-- `determineAlertTypeFromHeadline` (lines 121-134): substring scan of
the lowercased headline, bullish keywords checked before bearish ones,
no match neutral. -/
def determineAlertTypeFromHeadline (headline : String) : AlertType :=
  let lowerHeadline := toLowerList headline
  if bullishKeywords.any fun w => containsSub w.data lowerHeadline then .bullish
  else if bearishKeywords.any fun w => containsSub w.data lowerHeadline then .bearish
  else .neutral

/-- `determineAlertType` (lines 115-119): numeric sentiment-score
classification. -/
def determineAlertType (sentimentScore : ℚ) : AlertType :=
  if sentimentScore > 0.2 then .bullish
  else if sentimentScore < -0.2 then .bearish
  else .neutral

/-! ## NewsService: simulated alert generator -/

/-- The `Math.random()` draws consumed by
`generateRealisticMarketAlerts`: one per template for `minutesAgo`
(taken when the template array literal is built) and four per emitted
alert (symbol pick, percent, amount, price). -/
structure AlertDraws where
  tmplU : ℕ → ℚ
  symU : ℕ → ℚ
  pctU : ℕ → ℚ
  amtU : ℕ → ℚ
  prcU : ℕ → ℚ

/-- JS `Math.floor` of a rational, clamped into `ℕ` (all draws in scope
are nonnegative). -/
def ratFloorNat (q : ℚ) : ℕ := (⌊q⌋).toNat

/-- JS `Number.prototype.toFixed(0)` for the nonnegative draws in scope:
round half-up to an integer and print it. -/
def toFixed0 (q : ℚ) : String := toString (round q)

/-- JS `Number.prototype.toFixed(1)` for the nonnegative draws in scope:
round half-up to one decimal and print it. -/
def toFixed1 (q : ℚ) : String :=
  let n := round (q * 10)
  toString (n / 10) ++ "." ++ toString (n % 10)

/-- One entry of the `alertTemplates` array (lines 140-181), with its
`minutesAgo` draw already taken. -/
structure AlertTemplate where
  template : String
  type : AlertType
  minutesAgo : ℕ

/-- The eight-entry `alertTemplates` array literal, whose `minutesAgo`
fields each consume one `Math.random()` draw at construction. -/
def alertTemplates (u : ℕ → ℚ) : List AlertTemplate :=
  [ ⟨"{symbol} showing bullish momentum after earnings beat", .bullish, ratFloorNat (u 0 * 30)⟩,
    ⟨"Fed minutes suggest higher rates for longer", .bearish, ratFloorNat (u 1 * 60)⟩,
    ⟨"{symbol} filed 10-Q report - Revenue up {percent}% YoY", .neutral, ratFloorNat (u 2 * 120)⟩,
    ⟨"Tech sector rallies on AI breakthrough announcement", .bullish, ratFloorNat (u 3 * 45)⟩,
    ⟨"{symbol} announces stock buyback program worth ${amount}B", .bullish, ratFloorNat (u 4 * 90)⟩,
    ⟨"Market volatility increases amid geopolitical tensions", .bearish, ratFloorNat (u 5 * 180)⟩,
    ⟨"{symbol} upgrades price target to ${price}", .bullish, ratFloorNat (u 6 * 60)⟩,
    ⟨"Crypto market surge lifts blockchain-related stocks", .bullish, ratFloorNat (u 7 * 30)⟩ ]

/-- The fixed watch set of symbols (line 138). -/
def simSymbols : List String := ["AAPL", "MSFT", "NVDA", "GOOGL", "META", "TSLA", "AMZN"]

/-- Builds alert number `i` from its template (lines 183-206): fill the
placeholders (each occurs at most once, so replace-first equals
replace-all), backdate the timestamp by `minutesAgo` minutes, mark the
record simulated. -/
def mkSimAlert (d : AlertDraws) (now : ℤ) (i : ℕ) (t : AlertTemplate) : AlertRecord :=
  let symbol := simSymbols.getD (ratFloorNat (d.symU i * 7)) ""
  let percent := ratFloorNat (d.pctU i * 20) + 5
  let amount := toFixed1 (d.amtU i * 50 + 10)
  let price := toFixed0 (150 + d.prcU i * 200)
  let title := (((t.template.replace "{symbol}" symbol).replace
      "{percent}" (toString percent)).replace "{amount}" amount).replace "{price}" price
  { id := "alert_" ++ toString i ++ "_" ++ toString now
    title := title
    type := t.type
    timestamp := now - (t.minutesAgo : ℤ) * 60000
    source := "Market Simulation"
    isLive := false
    minutesAgo := some t.minutesAgo }

/-- `generateRealisticMarketAlerts` (lines 136-207): the first six
templates, each instantiated with fresh draws. -/
def generateRealisticMarketAlerts (now : ℤ) (d : AlertDraws) : List AlertRecord :=
  List.zipWith (mkSimAlert d now) (List.range 6) ((alertTemplates d.tmplU).take 6)

/-! ## NewsService: alert aggregator with cache -/

/-- Ordering used by the `(a, b) => new Date(b.timestamp) - new Date(a.timestamp)`
sort comparator: descending (non-increasing) timestamps. -/
def tsDesc (a b : AlertRecord) : Prop := b.timestamp ≤ a.timestamp

instance : DecidableRel tsDesc := fun a b =>
  inferInstanceAs (Decidable (b.timestamp ≤ a.timestamp))

instance : IsTotal AlertRecord tsDesc :=
  ⟨fun a b => (le_total b.timestamp a.timestamp).imp id id⟩

instance : IsTrans AlertRecord tsDesc :=
  ⟨fun _ _ _ hab hbc => le_trans hbc hab⟩

/-- The JS consistent-comparator sort, modelled as a sort by descending
timestamp. -/
def sortAlerts (l : List AlertRecord) : List AlertRecord := List.insertionSort tsDesc l

/-- The state of a `NewsService` instance: the credentials read in the
constructor (lines 2-11) and the single `market_alerts` cache slot.
`cacheTimeout` is the constant 300000 ms. -/
structure NewsState where
  alphaVantageKey : Option String
  finnhubKey : Option String
  newsApiKey : Option String
  cacheAlerts : Option (List AlertRecord × ℤ)

/-- The provider union built in lines 24-32.  `avNews` / `fhNews` are
the lists produced by `fetchAlphaVantageNews` / `fetchFinnhubNews`;
both helpers catch their own exceptions and return `[]` on any failure
(lines 71-74 and 92-95), so a throwing provider call is the `[]` case. -/
def newsUnion (st : NewsState) (avNews fhNews : List AlertRecord) : List AlertRecord :=
  (if keyPresent st.alphaVantageKey then avNews else [])
    ++ (if keyPresent st.finnhubKey then fhNews else [])

/-- The cache-miss branch of `getMarketAlerts` (lines 20-50): union the
configured providers, fall back to the simulated generator on an empty
union, sort descending by timestamp, truncate to 10, cache and return. -/
def getMarketAlertsBody (st : NewsState) (avNews fhNews : List AlertRecord)
    (d : AlertDraws) (now : ℤ) : List AlertRecord × NewsState :=
  let alerts := newsUnion st avNews fhNews
  let alerts := if alerts.length = 0 then generateRealisticMarketAlerts now d else alerts
  let alerts := (sortAlerts alerts).take 10
  (alerts, { st with cacheAlerts := some (alerts, now) })

/-- `getMarketAlerts` (lines 13-51): a fresh `market_alerts` cache entry
is returned as-is, otherwise the body runs. -/
def getMarketAlerts (st : NewsState) (avNews fhNews : List AlertRecord)
    (d : AlertDraws) (now : ℤ) : List AlertRecord × NewsState :=
  match st.cacheAlerts with
  | some e =>
      if now - e.2 < 300000 then (e.1, st)
      else getMarketAlertsBody st avNews fhNews d now
  | none => getMarketAlertsBody st avNews fhNews d now

/-- The alerts cache neither holds nor freshly holds an entry at `now`. -/
def alertsCacheMiss (st : NewsState) (now : ℤ) : Prop :=
  ∀ e, st.cacheAlerts = some e → ¬ (now - e.2 < 300000)

/-! ## AIFinancialService: report-field extraction

The extraction regexes of `AIFinancialService` (lines 922-932) are
embedded as direct leftmost-match scanners over the character list.  For
`/target price[:\s]*\$?(\d+\.?\d*)/i` maximal munch of the `[:\s]*` run
is equivalent to the backtracking regex semantics, because none of the
characters the class can consume is a `$` or a digit; the scan over
start positions realises the leftmost-match rule. -/

/-- Case-insensitive literal match at the head of the input, returning
the remainder on success. -/
def matchCI : List Char → List Char → Option (List Char)
  | [], s => some s
  | _ :: _, [] => none
  | p :: ps, c :: cs => if c.toLower = p.toLower then matchCI ps cs else none

/-- The characters matched by the regex class `[:\s]`. -/
def colonOrSpace (c : Char) : Bool :=
  c = ':' || c = ' ' || c = '\t' || c = '\n' || c = '\r' || c = '\x0b' || c = '\x0c'

/-- Greedy run of decimal digits. -/
def takeDigits : List Char → List Char × List Char
  | [] => ([], [])
  | c :: cs =>
    if c.isDigit then
      let p := takeDigits cs
      (c :: p.1, p.2)
    else ([], c :: cs)

/-- Numeric value of a digit run. -/
def digitsToNat (l : List Char) : ℕ := l.foldl (fun n c => n * 10 + (c.toNat - 48)) 0

/-- Greedy match of `\d+\.?\d*` at the head of the input, returning its
`parseFloat` value. -/
def numAt (s : List Char) : Option ℚ :=
  match takeDigits s with
  | ([], _) => none
  | (ds, rest) =>
    match rest with
    | '.' :: rest2 =>
      let fs := (takeDigits rest2).1
      some (mkRat (digitsToNat ds * 10 ^ fs.length + digitsToNat fs) (10 ^ fs.length))
    | _ => some (mkRat (digitsToNat ds) 1)

/-- Match of `target price[:\s]*\$?(\d+\.?\d*)` (case-insensitive) at
one start position. -/
def targetPriceAt (s : List Char) : Option ℚ :=
  match matchCI "target price".data s with
  | none => none
  | some rest =>
    let rest := rest.dropWhile colonOrSpace
    let rest := match rest with
      | '$' :: r => r
      | r => r
    numAt rest

/-- Leftmost-match scan for the target-price pattern. -/
def scanTargetPrice : List Char → Option ℚ
  | [] => none
  | c :: cs =>
    match targetPriceAt (c :: cs) with
    | some v => some v
    | none => scanTargetPrice cs

/-- `extractTargetPrice` (lines 922-926): `null` when the pattern does
not occur. -/
def extractTargetPrice (content : String) : Option ℚ := scanTargetPrice content.data

/-- The regex alternation `(BUY|SELL|HOLD|STRONG BUY|STRONG SELL)`, in
source order. -/
def ratingKeywords : List String := ["BUY", "SELL", "HOLD", "STRONG BUY", "STRONG SELL"]

/-- Match of the rating alternation at one start position; the match is
case-insensitive against the uppercase keywords, so the source's
`.toUpperCase()` of the matched text is the keyword itself. -/
def ratingAt (s : List Char) : Option String :=
  ratingKeywords.findSome? fun k =>
    match matchCI k.data s with
    | some _ => some k
    | none => none

/-- Leftmost-match scan for the rating alternation. -/
def scanRating : List Char → Option String
  | [] => none
  | c :: cs =>
    match ratingAt (c :: cs) with
    | some k => some k
    | none => scanRating cs

/-- `extractRating` (lines 928-932): `null` when no keyword occurs. -/
def extractRating (content : String) : Option String := scanRating content.data

/-- The rating/target-price assembly of `parseAnalysisResponse` (lines
672-673): each extractor result defaulted on a miss.  The JS default is
`(stockData.price * 1.12).toFixed(2)`, a half-up two-decimal rounding of
`price * 1.12` (rendered as a string there, kept numeric here). -/
def reportRatingAndTarget (content : String) (price : ℚ) : String × ℚ :=
  ((extractRating content).getD "HOLD",
   (extractTargetPrice content).getD (round2 (price * 1.12)))

/-! ## Concrete fixtures used by witnesses and counterexamples -/

/-- A fresh `MarketDataService` with no credential configured. -/
def stNoKeys : MDState :=
  { alphaVantageKey := none, polygonKey := none, finnhubKey := none, cache := fun _ => none }

/-- A fresh `MarketDataService` with only the Alpha Vantage credential. -/
def stAV : MDState :=
  { alphaVantageKey := some "AV_KEY", polygonKey := none, finnhubKey := none,
    cache := fun _ => none }

/-- A fresh `MarketDataService` whose Polygon and Finnhub credentials are
present but whose Alpha Vantage credential is absent. -/
def stPolygonOnly : MDState :=
  { alphaVantageKey := none, polygonKey := some "POLYGON_KEY", finnhubKey := some "FINNHUB_KEY",
    cache := fun _ => none }

/-- A sample successful `Global Quote` payload. -/
def avQuoteSample : AVQuote :=
  { symbol := "AAPL", price := 190, change := 1, changePercent := mkRat 1 2, volume := 1000000,
    high := 192, low := 188, openPrice := 189, previousClose := 189 }

/-- A transport outcome carrying a fully successful provider response. -/
def okTransport : Transport :=
  .ok { information := none, errorMessage := none, note := none,
        globalQuote := some avQuoteSample }

/-- The quote record `parseAlphaVantageData` builds from
`avQuoteSample` at time 0. -/
def qParsed : QuoteRecord :=
  { symbol := "AAPL", price := 190, change := 1, changePercent := mkRat 1 2, volume := 1000000,
    high := 192, low := 188, openPrice := 189, previousClose := 189, timestamp := 0,
    isLive := none, source := none }

/-- Midpoint `Math.random()` draws for the mock-quote generator. -/
def dHalf0 : MockDraws := ⟨1/2, 1/2, 1/2⟩

/-- A transport environment in which every request fails at the network
level. -/
def trNetEnv : String → Transport := fun _ => .netFail "ECONNREFUSED"

/-- Per-symbol midpoint draws for batch calls. -/
def dHalfEnv : String → MockDraws := fun _ => dHalf0

/-- A fresh `NewsService` with no credential configured. -/
def stNews0 : NewsState :=
  { alphaVantageKey := none, finnhubKey := none, newsApiKey := none, cacheAlerts := none }

/-- Midpoint `Math.random()` draws for the simulated-alert generator. -/
def dAlerts0 : AlertDraws :=
  ⟨fun _ => 1/2, fun _ => 1/2, fun _ => 1/2, fun _ => 1/2, fun _ => 1/2⟩

end FinMarket

namespace FinMarket

/-! ## Helper lemmas about the quote chain -/

/-- On a cache miss (absent or stale entry) `getRealTimeStockData` runs
its fetch body. -/
theorem getRealTimeStockData_of_miss (st : MDState) (symbol : String) (tr : Transport)
    (d : MockDraws) (now : ℤ) (h : quoteCacheMiss st symbol now) :
    getRealTimeStockData st symbol tr d now = quoteFetchBody st symbol tr d now := by
  unfold getRealTimeStockData
  cases hc : st.cache ("quote_" ++ symbol) with
  | none => rfl
  | some e => simp [h e hc]

/-- Each marker-field or malformed-response case makes
`fetchAlphaVantageData` throw. -/
theorem fetchAlphaVantageData_error_of_response (r : AVResponse) (now : ℤ)
    (h : r.information.isSome ∨ r.errorMessage.isSome ∨ r.note.isSome ∨ r.globalQuote = none) :
    ∃ m, fetchAlphaVantageData (.ok r) now = .error m := by
  cases hi : r.information with
  | some v =>
      exact ⟨"Rate limit exceeded - using simulated data", by simp [fetchAlphaVantageData, hi]⟩
  | none =>
    cases he : r.errorMessage with
    | some v => exact ⟨"API Error: " ++ v, by simp [fetchAlphaVantageData, hi, he]⟩
    | none =>
      cases hn : r.note with
      | some v => exact ⟨"API Note: " ++ v, by simp [fetchAlphaVantageData, hi, he, hn]⟩
      | none =>
        cases hg : r.globalQuote with
        | none =>
            exact ⟨"Invalid response format",
              by simp [fetchAlphaVantageData, parseAlphaVantageData, hi, he, hn, hg]⟩
        | some q => simp [hi, he, hn, hg] at h

/-- Any of the enumerated failure conditions makes the fetch throw. -/
theorem fetchAlphaVantageData_error_of_unavailable (tr : Transport) (now : ℤ)
    (h : (∃ m, tr = .netFail m)
      ∨ (∃ r, tr = .ok r ∧ r.information.isSome)
      ∨ (∃ r, tr = .ok r ∧ r.errorMessage.isSome)
      ∨ (∃ r, tr = .ok r ∧ r.note.isSome)
      ∨ (∃ r, tr = .ok r ∧ r.globalQuote = none)) :
    ∃ m, fetchAlphaVantageData tr now = .error m := by
  rcases h with ⟨m, rfl⟩ | ⟨r, rfl, hr⟩ | ⟨r, rfl, hr⟩ | ⟨r, rfl, hr⟩ | ⟨r, rfl, hr⟩
  · exact ⟨m, rfl⟩
  · exact fetchAlphaVantageData_error_of_response r now (Or.inl hr)
  · exact fetchAlphaVantageData_error_of_response r now (Or.inr (Or.inl hr))
  · exact fetchAlphaVantageData_error_of_response r now (Or.inr (Or.inr (Or.inl hr)))
  · exact fetchAlphaVantageData_error_of_response r now (Or.inr (Or.inr (Or.inr hr)))

/-- Under any failure condition the fetch body returns the simulated
record and leaves the state untouched. -/
theorem quoteFetchBody_fallback (st : MDState) (symbol : String) (tr : Transport)
    (d : MockDraws) (now : ℤ) (hfail : liveQuoteUnavailable st tr) :
    quoteFetchBody st symbol tr d now = (generateRealisticMockData symbol d now, st) := by
  rcases hfail with hk | hrest
  · simp [quoteFetchBody, hk]
  · cases hk : keyPresent st.alphaVantageKey with
    | false => simp [quoteFetchBody, hk]
    | true =>
      obtain ⟨m, hm⟩ := fetchAlphaVantageData_error_of_unavailable tr now hrest
      simp [quoteFetchBody, hk, hm]

/-- With the credential present and a successful fetch, the body returns
the parsed record and writes it to the cache under the quote key. -/
theorem quoteFetchBody_success (st : MDState) (symbol : String) (tr : Transport)
    (d : MockDraws) (now : ℤ) (q : QuoteRecord)
    (hk : keyPresent st.alphaVantageKey = true)
    (hok : fetchAlphaVantageData tr now = .ok q) :
    quoteFetchBody st symbol tr d now =
      (q, { st with cache := fun k =>
              if k = "quote_" ++ symbol then some (q, now) else st.cache k }) := by
  simp [quoteFetchBody, hk, hok]

/-- The simulated record always carries both origin-marker fields. -/
theorem schemaComplete_mock (symbol : String) (d : MockDraws) (now : ℤ) :
    schemaComplete (generateRealisticMockData symbol d now) := by
  exact ⟨rfl, rfl⟩

end FinMarket

namespace FinMarket

/-! ## Claim theorems -/

/-- Claim C1: for every symbol, `getRealTimeStockData` never raises to
its caller (the embedding is a total function), and on every failure
path — missing credential, provider rate-limit marker, explicit
error-message field, transport failure, malformed response — it returns
the schema-complete quote record produced by the simulated-data
fallback. -/
theorem quote_fetch_never_raises (st : MDState) (symbol : String) (tr : Transport)
    (d : MockDraws) (now : ℤ)
    (hmiss : quoteCacheMiss st symbol now)
    (hfail : liveQuoteUnavailable st tr) :
    (getRealTimeStockData st symbol tr d now).1 = generateRealisticMockData symbol d now
    ∧ schemaComplete (getRealTimeStockData st symbol tr d now).1 := by
  rw [getRealTimeStockData_of_miss st symbol tr d now hmiss,
    quoteFetchBody_fallback st symbol tr d now hfail]
  exact ⟨rfl, schemaComplete_mock symbol d now⟩

/-- Claim C1 witness: a fresh unconfigured service hit by a transport
failure returns the simulated record. -/
theorem quote_fetch_never_raises_witness :
    quoteCacheMiss stNoKeys "AAPL" 0
    ∧ liveQuoteUnavailable stNoKeys (.netFail "ECONNREFUSED")
    ∧ ((getRealTimeStockData stNoKeys "AAPL" (.netFail "ECONNREFUSED") dHalf0 0).1
        = generateRealisticMockData "AAPL" dHalf0 0
      ∧ schemaComplete (getRealTimeStockData stNoKeys "AAPL" (.netFail "ECONNREFUSED") dHalf0 0).1) :=
  ⟨fun _ h => Option.noConfusion h, Or.inl rfl,
   quote_fetch_never_raises stNoKeys "AAPL" (.netFail "ECONNREFUSED") dHalf0 0
     (fun _ h => Option.noConfusion h) (Or.inl rfl)⟩

/-- Claim C2: `getBatchStockData` returns exactly one item per input
symbol, in input order; each item's `data` field is populated (all
promises fulfill because `getRealTimeStockData` absorbs every failure),
and the `error` field is `null`, hence populated only when the live path
failed and simulated data was substituted. -/
theorem batch_one_item_per_symbol (st : MDState) (symbols : List String)
    (tr : String → Transport) (d : String → MockDraws) (now : ℤ) :
    (getBatchStockData st symbols tr d now).length = symbols.length
    ∧ ∀ i, i < symbols.length →
        ∃ item, (getBatchStockData st symbols tr d now)[i]? = some item
          ∧ symbols[i]? = some item.symbol
          ∧ item.data.isSome = true
          ∧ item.error = none
          ∧ (item.error.isSome = true → liveQuoteUnavailable st (tr item.symbol)) := by
  constructor
  · simp [getBatchStockData]
  · intro i hi
    have h1 : symbols[i]? = some (symbols.get ⟨i, hi⟩) := by
      simp [List.getElem?_eq_getElem hi]
    have h2 : (getBatchStockData st symbols tr d now)[i]? =
        some { symbol := symbols.get ⟨i, hi⟩
               data := some (getRealTimeStockData st (symbols.get ⟨i, hi⟩)
                 (tr (symbols.get ⟨i, hi⟩)) (d (symbols.get ⟨i, hi⟩)) now).1
               error := none } := by
      simp [getBatchStockData, settleQuote, h1]
    exact ⟨_, h2, h1, rfl, rfl, fun h => nomatch h⟩

/-- Claim C2 witness: the two-symbol batch of the spec's example, with
every provider unreachable, at index 0. -/
theorem batch_one_item_per_symbol_witness :
    0 < (["AAPL", "ZZZZ"] : List String).length
    ∧ ∃ item, (getBatchStockData stNoKeys ["AAPL", "ZZZZ"] trNetEnv dHalfEnv 0)[0]? = some item
        ∧ (["AAPL", "ZZZZ"] : List String)[0]? = some item.symbol
        ∧ item.data.isSome = true
        ∧ item.error = none
        ∧ (item.error.isSome = true → liveQuoteUnavailable stNoKeys (trNetEnv item.symbol)) :=
  ⟨by decide,
   (batch_one_item_per_symbol stNoKeys ["AAPL", "ZZZZ"] trNetEnv dHalfEnv 0).2 0 (by decide)⟩

/-- Claim C3 (amended): the quote chain consults only the Alpha Vantage
credential.  With it present and the fetch successful the parsed quote
is returned; under any failure condition the simulated fallback is
returned; and the stored Polygon and Finnhub credentials never influence
the result — a provider whose credential is present can therefore be
skipped, contrary to the original claim. -/
theorem quote_chain_consults_only_alpha_vantage (st : MDState) (symbol : String)
    (tr : Transport) (d : MockDraws) (now : ℤ) (pk fk : Option String)
    (hmiss : quoteCacheMiss st symbol now) :
    (∀ q, keyPresent st.alphaVantageKey = true → fetchAlphaVantageData tr now = .ok q →
        (getRealTimeStockData st symbol tr d now).1 = q)
    ∧ (liveQuoteUnavailable st tr →
        (getRealTimeStockData st symbol tr d now).1 = generateRealisticMockData symbol d now)
    ∧ (getRealTimeStockData { st with polygonKey := pk, finnhubKey := fk } symbol tr d now).1
        = (getRealTimeStockData st symbol tr d now).1 := by
  have hmiss2 : quoteCacheMiss { st with polygonKey := pk, finnhubKey := fk } symbol now := hmiss
  refine ⟨?_, ?_, ?_⟩
  · intro q hk hok
    rw [getRealTimeStockData_of_miss st symbol tr d now hmiss,
      quoteFetchBody_success st symbol tr d now q hk hok]
  · intro hfail
    rw [getRealTimeStockData_of_miss st symbol tr d now hmiss,
      quoteFetchBody_fallback st symbol tr d now hfail]
  · rw [getRealTimeStockData_of_miss st symbol tr d now hmiss,
      getRealTimeStockData_of_miss _ symbol tr d now hmiss2]
    cases hk : keyPresent st.alphaVantageKey with
    | false => simp [quoteFetchBody, hk]
    | true =>
      cases hf : fetchAlphaVantageData tr now with
      | ok q => simp [quoteFetchBody, hk, hf]
      | error m => simp [quoteFetchBody, hk, hf]

/-- Claim C3 witness: a configured service whose Alpha Vantage fetch
succeeds returns the parsed quote. -/
theorem quote_chain_consults_only_alpha_vantage_witness :
    quoteCacheMiss stAV "AAPL" 0
    ∧ keyPresent stAV.alphaVantageKey = true
    ∧ fetchAlphaVantageData okTransport 0 = .ok qParsed
    ∧ (getRealTimeStockData stAV "AAPL" okTransport dHalf0 0).1 = qParsed :=
  ⟨fun _ h => Option.noConfusion h, rfl, rfl,
   (quote_chain_consults_only_alpha_vantage stAV "AAPL" okTransport dHalf0 0 none none
     (fun _ h => Option.noConfusion h)).1 qParsed rfl rfl⟩

/-- Claim C3 counterexample: with the Polygon and Finnhub credentials
present, the Alpha Vantage credential absent, and a provider response
that would have succeeded, the chain still returns the simulated
fallback — the configured providers are skipped without having failed. -/
theorem provider_with_credential_skipped :
    keyPresent stPolygonOnly.polygonKey = true
    ∧ keyPresent stPolygonOnly.finnhubKey = true
    ∧ fetchAlphaVantageData okTransport 0 = .ok qParsed
    ∧ (getRealTimeStockData stPolygonOnly "AAPL" okTransport dHalf0 0).1.source
        = some "Simulated (Rate Limited)"
    ∧ (getRealTimeStockData stPolygonOnly "AAPL" okTransport dHalf0 0).1.isLive = some false :=
  ⟨rfl, rfl, rfl, rfl, rfl⟩

/-- Claim C4: a successful live fetch writes the quote under
`quote_{symbol}` and a second call within the 60 s TTL returns the
identical cached record (same `timestamp`); under any failure condition
the state is unchanged — the simulated record is never cached — so a
repeated fallback call returns the generator's output for its own fresh
draws. -/
theorem quote_cache_write_and_hit (st : MDState) (symbol : String) (tr tr2 : Transport)
    (d d2 : MockDraws) (now now2 : ℤ)
    (hmiss : quoteCacheMiss st symbol now) :
    (∀ q, keyPresent st.alphaVantageKey = true → fetchAlphaVantageData tr now = .ok q →
        ((getRealTimeStockData st symbol tr d now).2.cache ("quote_" ++ symbol) = some (q, now)
          ∧ (now2 - now < 60000 →
              (getRealTimeStockData (getRealTimeStockData st symbol tr d now).2
                  symbol tr2 d2 now2).1 = q)))
    ∧ (liveQuoteUnavailable st tr →
        ((getRealTimeStockData st symbol tr d now).2 = st
          ∧ (getRealTimeStockData st symbol tr d now).1 = generateRealisticMockData symbol d now
          ∧ (quoteCacheMiss st symbol now2 → liveQuoteUnavailable st tr2 →
              (getRealTimeStockData st symbol tr2 d2 now2).1
                = generateRealisticMockData symbol d2 now2))) := by
  constructor
  · intro q hk hok
    rw [getRealTimeStockData_of_miss st symbol tr d now hmiss,
      quoteFetchBody_success st symbol tr d now q hk hok]
    constructor
    · simp
    · intro httl
      simp only [getRealTimeStockData, if_pos rfl]
      simp [httl]
  · intro hfail
    rw [getRealTimeStockData_of_miss st symbol tr d now hmiss,
      quoteFetchBody_fallback st symbol tr d now hfail]
    refine ⟨rfl, rfl, ?_⟩
    intro hmiss2 hfail2
    rw [getRealTimeStockData_of_miss st symbol tr2 d2 now2 hmiss2,
      quoteFetchBody_fallback st symbol tr2 d2 now2 hfail2]

/-- Claim C4 witness: the cache write and the fresh-entry hit 1000 ms
later, on a configured service with a successful fetch. -/
theorem quote_cache_write_and_hit_witness :
    quoteCacheMiss stAV "AAPL" 0
    ∧ keyPresent stAV.alphaVantageKey = true
    ∧ fetchAlphaVantageData okTransport 0 = .ok qParsed
    ∧ ((1000 : ℤ) - 0 < 60000)
    ∧ ((getRealTimeStockData stAV "AAPL" okTransport dHalf0 0).2.cache ("quote_" ++ "AAPL")
          = some (qParsed, 0)
        ∧ (getRealTimeStockData (getRealTimeStockData stAV "AAPL" okTransport dHalf0 0).2
            "AAPL" okTransport dHalf0 1000).1 = qParsed) := by
  have h := (quote_cache_write_and_hit stAV "AAPL" okTransport okTransport dHalf0 dHalf0 0 1000
      (fun _ h => Option.noConfusion h)).1 qParsed rfl rfl
  exact ⟨fun _ h => Option.noConfusion h, rfl, rfl, by decide, h.1, h.2 (by decide)⟩

end FinMarket

namespace FinMarket

/-- On a cache miss `getMarketAlerts` runs its aggregation body. -/
theorem getMarketAlerts_of_miss (st : NewsState) (avNews fhNews : List AlertRecord)
    (d : AlertDraws) (now : ℤ) (h : alertsCacheMiss st now) :
    getMarketAlerts st avNews fhNews d now = getMarketAlertsBody st avNews fhNews d now := by
  unfold getMarketAlerts
  cases hc : st.cacheAlerts with
  | none => rfl
  | some e => simp [h e hc]

/-- Claim C5: for every provider outcome — live lists, an empty union
triggering the simulated fallback, or a throwing provider call (which
the fetch helpers absorb into an empty list, lines 71-74 and 92-95) —
`getMarketAlerts` returns at most 10 alerts sorted descending
(non-increasing) by timestamp. -/
theorem alerts_truncated_sorted (st : NewsState) (avNews fhNews : List AlertRecord)
    (d : AlertDraws) (now : ℤ) (hmiss : alertsCacheMiss st now) :
    (getMarketAlerts st avNews fhNews d now).1.length ≤ 10
    ∧ List.Sorted tsDesc (getMarketAlerts st avNews fhNews d now).1 := by
  rw [getMarketAlerts_of_miss st avNews fhNews d now hmiss]
  unfold getMarketAlertsBody
  constructor
  · exact List.length_take_le 10 _
  · exact (List.sorted_insertionSort tsDesc _).sublist (List.take_sublist 10 _)

/-- Claim C5 witness: a fresh unconfigured news service (every provider
result empty). -/
theorem alerts_truncated_sorted_witness :
    alertsCacheMiss stNews0 0
    ∧ ((getMarketAlerts stNews0 [] [] dAlerts0 0).1.length ≤ 10
      ∧ List.Sorted tsDesc (getMarketAlerts stNews0 [] [] dAlerts0 0).1) :=
  ⟨fun _ h => Option.noConfusion h,
   alerts_truncated_sorted stNews0 [] [] dAlerts0 0 (fun _ h => Option.noConfusion h)⟩

/-- Claim C10: when the provider union is empty and no exception is
thrown, the sorted-and-truncated simulated alert list is written to the
`market_alerts` cache slot, and a second call within the 300000 ms TTL
returns the identical list (regardless of the second call's provider
results and draws) instead of freshly generated alerts. -/
theorem simulated_alerts_cached (st : NewsState)
    (avNews fhNews avNews2 fhNews2 : List AlertRecord)
    (d d2 : AlertDraws) (now now2 : ℤ)
    (hmiss : alertsCacheMiss st now)
    (hempty : newsUnion st avNews fhNews = [])
    (httl : now2 - now < 300000) :
    (getMarketAlerts st avNews fhNews d now).1
        = (sortAlerts (generateRealisticMarketAlerts now d)).take 10
    ∧ (getMarketAlerts st avNews fhNews d now).2.cacheAlerts
        = some ((getMarketAlerts st avNews fhNews d now).1, now)
    ∧ (getMarketAlerts (getMarketAlerts st avNews fhNews d now).2 avNews2 fhNews2 d2 now2).1
        = (getMarketAlerts st avNews fhNews d now).1 := by
  rw [getMarketAlerts_of_miss st avNews fhNews d now hmiss]
  set L := (sortAlerts (generateRealisticMarketAlerts now d)).take 10 with hL
  have hbody : getMarketAlertsBody st avNews fhNews d now
      = (L, { st with cacheAlerts := some (L, now) }) := by
    unfold getMarketAlertsBody
    rw [hempty, hL]
    rfl
  rw [hbody]
  refine ⟨rfl, rfl, ?_⟩
  simp [getMarketAlerts, httl]

/-- Claim C10 witness: a fresh unconfigured news service; the second
call happens 1000 ms later with arbitrary fresh draws. -/
theorem simulated_alerts_cached_witness :
    alertsCacheMiss stNews0 0
    ∧ newsUnion stNews0 [] [] = []
    ∧ ((1000 : ℤ) - 0 < 300000)
    ∧ ((getMarketAlerts stNews0 [] [] dAlerts0 0).1
          = (sortAlerts (generateRealisticMarketAlerts 0 dAlerts0)).take 10
      ∧ (getMarketAlerts (getMarketAlerts stNews0 [] [] dAlerts0 0).2 [] []
            ⟨fun _ => 0, fun _ => 0, fun _ => 0, fun _ => 0, fun _ => 0⟩ 1000).1
          = (getMarketAlerts stNews0 [] [] dAlerts0 0).1) := by
  have h := simulated_alerts_cached stNews0 [] [] [] []
      dAlerts0 ⟨fun _ => 0, fun _ => 0, fun _ => 0, fun _ => 0, fun _ => 0⟩ 0 1000
      (fun _ h => Option.noConfusion h) rfl (by decide)
  exact ⟨fun _ h => Option.noConfusion h, rfl, by decide, h.1, h.2.2⟩

end FinMarket

namespace FinMarket

/-- Claim C6: with zero quote providers configured, `getQuote("AAPL")`
returns a simulated record with `isLive = false` and
`source = "Simulated (Rate Limited)"`, whose price is
`round2 (180 * (1 + v))` for some `v ∈ [-0.03, 0.03]`, hence lies in
`[174.6, 185.4]`, for every draw of the random source. -/
theorem zero_providers_aapl_simulated (st : MDState) (tr : Transport) (d : MockDraws) (now : ℤ)
    (hav : st.alphaVantageKey = none) (hpk : st.polygonKey = none) (hfk : st.finnhubKey = none)
    (hmiss : quoteCacheMiss st "AAPL" now) (h0 : 0 ≤ d.u1) (h1 : d.u1 < 1) :
    (getRealTimeStockData st "AAPL" tr d now).1.isLive = some false
    ∧ (getRealTimeStockData st "AAPL" tr d now).1.source = some "Simulated (Rate Limited)"
    ∧ (∃ v, -(3/100) ≤ v ∧ v ≤ 3/100
        ∧ (getRealTimeStockData st "AAPL" tr d now).1.price = round2 (180 * (1 + v)))
    ∧ (174.6 : ℚ) ≤ (getRealTimeStockData st "AAPL" tr d now).1.price
    ∧ (getRealTimeStockData st "AAPL" tr d now).1.price ≤ (185.4 : ℚ) := by
  have hfail : liveQuoteUnavailable st tr := Or.inl (by rw [hav]; rfl)
  have hq : (getRealTimeStockData st "AAPL" tr d now).1
      = generateRealisticMockData "AAPL" d now := by
    rw [getRealTimeStockData_of_miss st "AAPL" tr d now hmiss,
      quoteFetchBody_fallback st "AAPL" tr d now hfail]
  rw [hq]
  have hprice : (generateRealisticMockData "AAPL" d now).price
      = round2 (180 * (1 + (d.u1 - 0.5) * 0.06)) := by
    simp [generateRealisticMockData, basePriceFor]
  set v : ℚ := (d.u1 - 0.5) * 0.06 with hv
  have hv0 : -(3/100) ≤ v := by rw [hv]; nlinarith
  have hv1 : v ≤ 3/100 := by rw [hv]; nlinarith
  set n : ℤ := round (180 * (1 + v) * 100) with hn
  have hx0 : (17460 : ℚ) ≤ 180 * (1 + v) * 100 := by nlinarith
  have hx1 : 180 * (1 + v) * 100 ≤ 18540 := by nlinarith
  have hn0 : (17460 : ℤ) ≤ n := by
    rw [hn, round_eq]
    refine Int.le_floor.mpr ?_
    push_cast
    linarith
  have hn1 : n ≤ 18540 := by
    have h2 : ((⌊180 * (1 + v) * 100 + 1/2⌋ : ℤ) : ℚ) ≤ 180 * (1 + v) * 100 + 1/2 :=
      Int.floor_le _
    have h3 : ((⌊180 * (1 + v) * 100 + 1/2⌋ : ℤ) : ℚ) < ((18541 : ℤ) : ℚ) := by
      push_cast
      linarith
    rw [hn, round_eq]
    exact Int.lt_add_one_iff.mp (by exact_mod_cast h3)
  have hpr2 : round2 (180 * (1 + v)) = (n : ℚ) / 100 := by
    rw [round2, hn]
  refine ⟨rfl, rfl, ⟨v, hv0, hv1, hprice⟩, ?_, ?_⟩
  · rw [hprice, hpr2, le_div_iff₀ (by norm_num : (0:ℚ) < 100)]
    have : ((17460 : ℤ) : ℚ) ≤ (n : ℚ) := by exact_mod_cast hn0
    push_cast at this
    norm_num
    linarith
  · rw [hprice, hpr2, div_le_iff₀ (by norm_num : (0:ℚ) < 100)]
    have : (n : ℚ) ≤ ((18540 : ℤ) : ℚ) := by exact_mod_cast hn1
    push_cast at this
    norm_num
    linarith

/-- Claim C6 witness: the fresh unconfigured service with midpoint
draws. -/
theorem zero_providers_aapl_simulated_witness :
    stNoKeys.alphaVantageKey = none ∧ stNoKeys.polygonKey = none ∧ stNoKeys.finnhubKey = none
    ∧ quoteCacheMiss stNoKeys "AAPL" 0
    ∧ (0 : ℚ) ≤ dHalf0.u1 ∧ dHalf0.u1 < 1
    ∧ ((getRealTimeStockData stNoKeys "AAPL" okTransport dHalf0 0).1.isLive = some false
      ∧ (174.6 : ℚ) ≤ (getRealTimeStockData stNoKeys "AAPL" okTransport dHalf0 0).1.price
      ∧ (getRealTimeStockData stNoKeys "AAPL" okTransport dHalf0 0).1.price ≤ (185.4 : ℚ)) := by
  have h := zero_providers_aapl_simulated stNoKeys okTransport dHalf0 0 rfl rfl rfl
      (fun _ h => Option.noConfusion h) (by norm_num [dHalf0]) (by norm_num [dHalf0])
  exact ⟨rfl, rfl, rfl, fun _ h => Option.noConfusion h, by norm_num [dHalf0],
    by norm_num [dHalf0], h.1, h.2.2.2.1, h.2.2.2.2⟩

end FinMarket

namespace FinMarket

/-- Claim C7 counterexample: on the claim's own text the target-price
regex cannot match — the word "is" stands between "TARGET PRICE" and the
number, but the pattern allows only colons, whitespace and an optional
dollar sign there — so the assembled target price is the `price * 1.12`
default (224 at price 200), not 150.0. -/
theorem target_price_extraction_counterexample :
    extractRating "...TARGET PRICE is $150, rating BUY..." = some "BUY"
    ∧ extractTargetPrice "...TARGET PRICE is $150, rating BUY..." = none
    ∧ (reportRatingAndTarget "...TARGET PRICE is $150, rating BUY..." 200).2
        = round2 (200 * 1.12)
    ∧ round2 ((200 : ℚ) * 1.12) ≠ 150 := by
  refine ⟨by decide, by decide, rfl, ?_⟩
  norm_num [round2, round_eq]

/-- Claim C7 (amended): on the claim's text the rating extracts to "BUY"
but the target price misses (the intervening word defeats the pattern)
and defaults to `round2 (price * 1.12)`; with a separator the pattern
allows ("TARGET PRICE: $150") the extraction yields 150; and a text with
no keyword defaults to rating "HOLD" and target `round2 (price * 1.12)`. -/
theorem report_rating_and_target_extraction (price : ℚ) :
    reportRatingAndTarget "...TARGET PRICE is $150, rating BUY..." price
      = ("BUY", round2 (price * 1.12))
    ∧ extractTargetPrice "...TARGET PRICE: $150, rating BUY..." = some 150
    ∧ reportRatingAndTarget "...TARGET PRICE: $150, rating BUY..." price = ("BUY", 150)
    ∧ reportRatingAndTarget "The quarterly report shows steady revenue." price
      = ("HOLD", round2 (price * 1.12)) := by
  refine ⟨?_, by decide, ?_, ?_⟩
  · show ((extractRating _).getD "HOLD", (extractTargetPrice _).getD _) = _
    rw [(by decide : extractRating "...TARGET PRICE is $150, rating BUY..." = some "BUY"),
      (by decide : extractTargetPrice "...TARGET PRICE is $150, rating BUY..." = none)]
    rfl
  · show ((extractRating _).getD "HOLD", (extractTargetPrice _).getD _) = _
    rw [(by decide : extractRating "...TARGET PRICE: $150, rating BUY..." = some "BUY"),
      (by decide : extractTargetPrice "...TARGET PRICE: $150, rating BUY..." = some 150)]
    rfl
  · show ((extractRating _).getD "HOLD", (extractTargetPrice _).getD _) = _
    rw [(by decide : extractRating "The quarterly report shows steady revenue." = none),
      (by decide : extractTargetPrice "The quarterly report shows steady revenue." = none)]
    rfl

end FinMarket

namespace FinMarket

/-- Claim C8: score-less classification scans the lowercased headline
for the bullish keywords before the bearish ones — any bullish
containment wins, bearish wins only when no bullish keyword is
contained, and no containment at all yields neutral — with the three
example headlines classifying bullish, bearish and neutral. -/
theorem headline_keyword_classification (hl : String) :
    ((∃ w ∈ bullishKeywords, containsSub w.data (toLowerList hl) = true) →
        determineAlertTypeFromHeadline hl = .bullish)
    ∧ ((∀ w ∈ bullishKeywords, ¬ containsSub w.data (toLowerList hl) = true) →
       (∃ w ∈ bearishKeywords, containsSub w.data (toLowerList hl) = true) →
        determineAlertTypeFromHeadline hl = .bearish)
    ∧ ((∀ w ∈ bullishKeywords, ¬ containsSub w.data (toLowerList hl) = true) →
       (∀ w ∈ bearishKeywords, ¬ containsSub w.data (toLowerList hl) = true) →
        determineAlertTypeFromHeadline hl = .neutral)
    ∧ determineAlertTypeFromHeadline "Stock surges after earnings beat" = .bullish
    ∧ determineAlertTypeFromHeadline "Shares plunge on guidance cut" = .bearish
    ∧ determineAlertTypeFromHeadline "Company names new CFO" = .neutral := by
  refine ⟨?_, ?_, ?_, by decide, by decide, by decide⟩
  · intro h
    have hb : bullishKeywords.any (fun w => containsSub w.data (toLowerList hl)) = true :=
      List.any_eq_true.mpr h
    simp [determineAlertTypeFromHeadline, hb]
  · intro hnb h
    have hb : bullishKeywords.any (fun w => containsSub w.data (toLowerList hl)) = false := by
      rw [List.any_eq_false]
      exact fun w hw => by simpa using hnb w hw
    have he : bearishKeywords.any (fun w => containsSub w.data (toLowerList hl)) = true :=
      List.any_eq_true.mpr h
    simp [determineAlertTypeFromHeadline, hb, he]
  · intro hnb hne
    have hb : bullishKeywords.any (fun w => containsSub w.data (toLowerList hl)) = false := by
      rw [List.any_eq_false]
      exact fun w hw => by simpa using hnb w hw
    have he : bearishKeywords.any (fun w => containsSub w.data (toLowerList hl)) = false := by
      rw [List.any_eq_false]
      exact fun w hw => by simpa using hne w hw
    simp [determineAlertTypeFromHeadline, hb, he]

/-- Claim C8 witness: the bullish example headline contains a bullish
keyword and classifies bullish through the scan order. -/
theorem headline_keyword_classification_witness :
    (∃ w ∈ bullishKeywords,
        containsSub w.data (toLowerList "Stock surges after earnings beat") = true)
    ∧ determineAlertTypeFromHeadline "Stock surges after earnings beat" = .bullish :=
  ⟨by decide, (headline_keyword_classification "Stock surges after earnings beat").1 (by decide)⟩

/-- Claim C9: keyword containment is substring containment, not
whole-word matching: any headline whose lowercased text contains a
bullish keyword — even only inside a longer word — classifies bullish
regardless of bearish keywords also being contained.  In
"Supply squeezed as markets crash" the only bullish hit is "up" inside
"Supply" (no stand-alone " up " occurs), yet the bearish "crash" loses. -/
theorem headline_substring_bullish_wins (hl : String)
    (hbull : ∃ w ∈ bullishKeywords, containsSub w.data (toLowerList hl) = true)
    (hbear : ∃ w ∈ bearishKeywords, containsSub w.data (toLowerList hl) = true) :
    determineAlertTypeFromHeadline hl = .bullish
    ∧ determineAlertTypeFromHeadline "Supply squeezed as markets crash" = .bullish
    ∧ containsSub "up".data (toLowerList "Supply squeezed as markets crash") = true
    ∧ containsSub (" up ").data (toLowerList "Supply squeezed as markets crash") = false
    ∧ containsSub "crash".data (toLowerList "Supply squeezed as markets crash") = true := by
  have hb : bullishKeywords.any (fun w => containsSub w.data (toLowerList hl)) = true :=
    List.any_eq_true.mpr hbull
  refine ⟨?_, by decide, by decide, by decide, by decide⟩
  simp [determineAlertTypeFromHeadline, hb]

/-- Claim C9 witness: the example headline contains both a bullish
keyword (inside a longer word) and a bearish keyword, and classifies
bullish. -/
theorem headline_substring_bullish_wins_witness :
    (∃ w ∈ bullishKeywords,
        containsSub w.data (toLowerList "Supply squeezed as markets crash") = true)
    ∧ (∃ w ∈ bearishKeywords,
        containsSub w.data (toLowerList "Supply squeezed as markets crash") = true)
    ∧ determineAlertTypeFromHeadline "Supply squeezed as markets crash" = .bullish :=
  ⟨by decide, by decide,
   (headline_substring_bullish_wins "Supply squeezed as markets crash"
     (by decide) (by decide)).1⟩

end FinMarket
